import Mathlib

/-!
# Watchman notification hub — shallow embedding and verification

Shallow embedding of the event ingestion / notification dispatch pipeline:

* the feed poller (`src/cogs/news.py`, `NewsCog.fetch_and_post_news` and
  `NewsCog.post_story`),
* the resource monitor (`src/bot/cogs/monitoring.py`,
  `MonitoringCog.check_system_health`),
* the ingress bridge (`src/api/server.py` handlers together with the cog
  handlers of `src/bot/cogs/api_events.py`).

Python `datetime` values are modelled as 6-tuples of naturals ordered
lexicographically; Python `float` percentages are modelled as rationals;
Python `str` as Lean `String` (slicing `s[:n]` counts code points, as in
Python); the Python `set` of posted story ids is modelled as its
insertion-ordered list of (distinct) elements, with the unspecified
iteration order of `list(s)` made explicit as an `enum` parameter.
-/

namespace Watchman

/-! ## Time: Python `datetime` values as 6-tuples -/

/-- The `(year, month, day, hour, minute, second)` tuple from which
`fetch_and_post_news` builds a `datetime` (`published_parsed[:6]`). -/
structure Tuple6 where
  year : Nat
  month : Nat
  day : Nat
  hour : Nat
  minute : Nat
  second : Nat
deriving DecidableEq, Repr

/-- Strict lexicographic comparison of two 6-tuples; this is how Python
compares both tuples of equal length and the `datetime` values built from
them (chronological order). -/
def tupleLt (a b : Tuple6) : Bool :=
  if a.year ≠ b.year then a.year < b.year
  else if a.month ≠ b.month then a.month < b.month
  else if a.day ≠ b.day then a.day < b.day
  else if a.hour ≠ b.hour then a.hour < b.hour
  else if a.minute ≠ b.minute then a.minute < b.minute
  else a.second < b.second

/-- Comparison `a <= b` on datetimes, as used by `story_date <= self.last_check`. -/
def tupleLe (a b : Tuple6) : Bool :=
  tupleLt a b || (a == b)

/-- Leap-year test of the Gregorian calendar (Python `calendar.isleap`,
used by `datetime`'s day-of-month validation). -/
def isLeap (y : Nat) : Bool :=
  (y % 4 == 0 && y % 100 != 0) || (y % 400 == 0)

/-- Days in a month, as `datetime` validates the `day` argument. -/
def daysInMonth (y m : Nat) : Nat :=
  if m == 2 then (if isLeap y then 29 else 28)
  else if m == 4 || m == 6 || m == 9 || m == 11 then 30
  else 31

/-- Python `datetime(year, month, day, hour, minute, second)` raises
`ValueError` unless `1 <= year <= 9999`, `1 <= month <= 12`,
`1 <= day <= days-in-month`, `hour < 24`, `minute < 60`, `second < 60`.
On success the value is the tuple itself (ordered lexicographically). -/
def mkDatetime (t : Tuple6) : Except Unit Tuple6 :=
  if 1 ≤ t.year ∧ t.year ≤ 9999 ∧ 1 ≤ t.month ∧ t.month ≤ 12 ∧
      1 ≤ t.day ∧ t.day ≤ daysInMonth t.year t.month ∧
      t.hour < 24 ∧ t.minute < 60 ∧ t.second < 60 then
    .ok t
  else
    .error ()

/-- The all-zero tuple, the default `story.get('published_parsed',
(0,0,0,0,0,0))` used when an entry has no parsed publication timestamp;
`datetime(0,0,0,0,0,0)` raises (year 0 is below `MINYEAR`). -/
def zero6 : Tuple6 := ⟨0, 0, 0, 0, 0, 0⟩

/-! ## Feed entries (`feedparser` entry dictionaries) -/

/-- A feed entry as consumed by `NewsCog`: each field models one
`story.get(...)` key, `none` standing for an absent key. -/
structure Story where
  id : Option String
  link : Option String
  title : Option String
  summary : Option String
  author : Option String
  published_parsed : Option Tuple6
  comments : Option String
deriving DecidableEq, Repr

/-- The dedup identifier, `story.get('id', story.get('link', ''))`. -/
def storyId (s : Story) : String :=
  s.id.getD (s.link.getD "")

/-- The value `datetime(*story.get('published_parsed', (0,0,0,0,0,0))[:6])` —
fails (raises) exactly when the tuple is not a valid datetime, in
particular on the all-zero default. -/
def storyDate (s : Story) : Except Unit Tuple6 :=
  mkDatetime (s.published_parsed.getD zero6)

/-! ## Sorting (`new_stories.sort(key=..., reverse=True)`) -/

/-- Python comparison of the sort keys
`x.get('published_parsed', (0,))`: a present timestamp tuple compares
lexicographically; the default `(0,)` is a strict prefix of (hence less
than) every 6-component tuple with the same or larger first component,
so an absent timestamp is strictly smaller than any present one. -/
def sortKeyLt : Option Tuple6 → Option Tuple6 → Bool
  | none, none => false
  | none, some _ => true
  | some _, none => false
  | some a, some b => tupleLt a b

/-- Stable descending insertion: place `s` before the first element whose
key is `≤` the key of `s`.  Models one step of Python's stable
`list.sort(key=..., reverse=True)`. -/
def insertDesc (s : Story) : List Story → List Story
  | [] => [s]
  | t :: ts =>
    if sortKeyLt s.published_parsed t.published_parsed then
      t :: insertDesc s ts
    else
      s :: t :: ts

/-- Models `new_stories.sort(key=lambda x: x.get('published_parsed', (0,)),
reverse=True)`: stable sort by publication timestamp, newest first,
entries lacking a timestamp last. -/
def pySortStories (l : List Story) : List Story :=
  l.foldr insertDesc []

/-! ## Rendering (`discord.Embed`) -/

/-- The rendered message the Gateway hands to the sink: the embed fields
that the claims are about. -/
structure Embed where
  title : String
  url : String
  description : String
  color : Nat
deriving DecidableEq, Repr

/-- Python string slice `s[:n]`: the first `n` code points of `s`. -/
def pySlice (n : Nat) (s : String) : String :=
  (s.toList.take n).asString

/-- The embed built by `NewsCog.post_story` before the send is attempted:
`title=title[:256]`, `description=summary[:4096] if summary else
"No summary available"`, Hacker News orange. -/
def post_story_embed (s : Story) : Embed :=
  let title := s.title.getD "No title"
  let link := s.link.getD ""
  let summary := s.summary.getD ""
  { title := pySlice 256 title
    url := link
    description := if summary = "" then "No summary available" else pySlice 4096 summary
    color := 0xFF6600 }

/-! ## The poll cycle (`NewsCog.fetch_and_post_news`) -/

/-- The dispatch loop of `fetch_and_post_news` (lines 72–93): walk the
sorted entries; stop once 5 have been posted; skip an entry whose id is
already in `posted_stories`; build its `datetime` (this can raise — the
`Bool` result is `false` when the loop aborted there); skip it when not
strictly newer than `last_check`; otherwise post it (`post_story`
attempts `channel.send` and swallows any failure — `sendOk` records the
delivery outcome, which does not influence control flow), add its id to
`posted_stories` and continue.  Returns the posted `(story, delivered?)`
pairs in order, the final `posted_stories` (insertion-ordered), and
whether the loop completed without raising. -/
def postLoop (sendOk : Story → Bool) (lastCheck : Tuple6) :
    List Story → List String → Nat → List (Story × Bool) × List String × Bool
  | [], posted, _ => ([], posted, true)
  | s :: rest, posted, count =>
    if 5 ≤ count then ([], posted, true)
    else if storyId s ∈ posted then postLoop sendOk lastCheck rest posted count
    else match storyDate s with
      | .error _ => ([], posted, false)
      | .ok d =>
        if tupleLe d lastCheck then postLoop sendOk lastCheck rest posted count
        else
          let r := postLoop sendOk lastCheck rest (posted ++ [storyId s]) (count + 1)
          ((s, sendOk s) :: r.1, r.2)

/-- The process-wide state of `NewsCog` that one poll cycle reads and
writes. -/
structure NewsState where
  last_check : Tuple6
  posted_stories : List String
deriving DecidableEq, Repr

/-- Models `list(self.posted_stories)[-500:]`: the last 500 elements of an
enumeration of the set. -/
def last500 (l : List String) : List String :=
  l.drop (l.length - 500)

/-- One poll cycle, `fetch_and_post_news` from line 59 on (the news
channel is assumed configured and resolvable; the merged fetch results
are the `merged` argument, a per-source fetch failure only shrinks it).
`enum` models `list(set)` — CPython enumerates a `set` in an
implementation-defined order that need not be insertion order, so it is
kept as an explicit parameter (assumed a permutation where a theorem
needs it).  Sorts, runs the dispatch loop, and — only when no exception
was raised — advances `last_check` to `now` and, when the set holds more
than 1000 ids, shrinks it to `set(list(s)[-500:])`. -/
def fetch_and_post_news (enum : List String → List String) (sendOk : Story → Bool)
    (now : Tuple6) (merged : List Story) (st : NewsState) :
    List (Story × Bool) × NewsState × Bool :=
  let sorted := pySortStories merged
  let r := postLoop sendOk st.last_check sorted st.posted_stories 0
  let dispatched := r.1
  let posted := r.2.1
  if r.2.2 then
    let posted' := if 1000 < posted.length then last500 (enum posted) else posted
    (dispatched, ⟨now, posted'⟩, true)
  else
    (dispatched, ⟨st.last_check, posted⟩, false)

/-- The entries of one cycle that survive the two filters of
`fetch_and_post_news` (id not in `posted_stories`, publication strictly
newer than `last_check`), in sorted order: the claims' "eligible new
entries".  The `error` branch of the date is never eligible here because
in the code it raises instead of filtering (see `postLoop`). -/
def eligB (lastCheck : Tuple6) (posted : List String) (s : Story) : Bool :=
  if storyId s ∈ posted then false
  else match storyDate s with
    | .ok d => !(tupleLe d lastCheck)
    | .error _ => false

/-- Whether the entry's publication tuple builds a valid `datetime`
(i.e. line 84 of `fetch_and_post_news` does not raise on it). -/
def isOkDate (s : Story) : Bool :=
  match storyDate s with
  | .ok _ => true
  | .error _ => false

/-- The eligible entries of a cycle, in the cycle's own sorted order. -/
def eligibleList (merged : List Story) (st : NewsState) : List Story :=
  (pySortStories merged).filter (eligB st.last_check st.posted_stories)

/-! ### Concrete fixtures used by closed theorems -/

/-- A three-decimal-digit string for `i < 1000`; distinct for distinct
`i`. -/
def idNum (i : Nat) : String :=
  String.mk [Char.ofNat (48 + i / 100), Char.ofNat (48 + (i / 10) % 10),
    Char.ofNat (48 + i % 10)]

/-- A pool of 998 distinct identifiers already in the seen set before the cycle of
the eviction scenarios. -/
def bigIds : List String := (List.range 998).map idNum

/-- A cutoff in the past. -/
def t2020 : Tuple6 := ⟨2020, 1, 1, 0, 0, 0⟩

/-- A story with identifier `"n" ++ k` published on day `d` of
January 2024. -/
def mkStory (k d : Nat) : Story :=
  { id := some ("n" ++ idNum k), link := some "https://example.org/x"
    title := some "Title", summary := some "Summary", author := some "A"
    published_parsed := some ⟨2024, 1, d, 0, 0, 0⟩, comments := none }

/-- The three fresh entries of the eviction scenarios, newest first. -/
def freshStories : List Story := [mkStory 3 9, mkStory 2 8, mkStory 1 7]

/-- The seen-set state of the eviction scenarios: 998 identifiers
already present. -/
def bigState : NewsState := ⟨t2020, bigIds⟩

/-- The eviction cycle run with `list(set)` enumerating the set in
reverse insertion order (one of the orders CPython may produce, since
set iteration order is implementation-defined). -/
def evictionRunRev : List (Story × Bool) × NewsState × Bool :=
  fetch_and_post_news List.reverse (fun _ => true) ⟨2024, 1, 10, 0, 0, 0⟩
    freshStories bigState

/-- The eviction cycle run with `list(set)` enumerating the set in
insertion order. -/
def evictionRunId : List (Story × Bool) × NewsState × Bool :=
  fetch_and_post_news (fun l => l) (fun _ => true) ⟨2024, 1, 10, 0, 0, 0⟩
    freshStories bigState

/-- A single fresh story whose delivery the sink will fail. -/
def failStory : Story := mkStory 7 5

/-- A cycle in which the only dispatch attempt fails at the sink:
`channel.send` raises, `post_story` swallows it. -/
def failRun : List (Story × Bool) × NewsState × Bool :=
  fetch_and_post_news (fun l => l) (fun _ => false) ⟨2024, 1, 10, 0, 0, 0⟩
    [failStory] ⟨t2020, []⟩

/-- Eight eligible fresh entries (cap scenario), ids distinct, newest
first once sorted. -/
def eightStories : List Story :=
  [mkStory 1 1, mkStory 2 2, mkStory 3 3, mkStory 4 4,
   mkStory 5 5, mkStory 6 6, mkStory 7 7, mkStory 8 8]

/-- The cap-scenario cycle: 8 eligible entries, empty seen set. -/
def capRun : List (Story × Bool) × NewsState × Bool :=
  fetch_and_post_news (fun l => l) (fun _ => true) ⟨2024, 1, 10, 0, 0, 0⟩
    eightStories ⟨t2020, []⟩

/-- An entry with no parsed publication timestamp. -/
def badStory : Story :=
  { id := some "bad", link := some "https://example.org/bad"
    title := some "Bad", summary := none, author := none
    published_parsed := none, comments := none }

/-- The abort-scenario cycle: one good entry followed (in sorted order —
a missing timestamp sorts oldest, hence last) by a timestamp-less one. -/
def abortRun : List (Story × Bool) × NewsState × Bool :=
  fetch_and_post_news (fun l => l) (fun _ => true) ⟨2024, 1, 10, 0, 0, 0⟩
    [mkStory 1 7, badStory] ⟨t2020, []⟩

/-! ## Resource monitor (`MonitoringCog.check_system_health`) -/

/-- One alert dictionary built by `check_system_health` (the
human-readable `message` string is presentation only — an f-string over
the sampled value — and carries no logic, so it is not modelled). -/
structure Alert where
  type : String
  severity : String
deriving DecidableEq, Repr

/-- The CPU block (lines 64–69): `if cpu_percent > 80`, severity
`"warning" if cpu_percent < 90 else "critical"`. -/
def cpuAlert (v : ℚ) : Option Alert :=
  if 80 < v then some ⟨"CPU", if v < 90 then "warning" else "critical"⟩ else none

/-- The memory block (lines 72–77): `if memory.percent > 85`, severity
`"warning" if memory.percent < 95 else "critical"`. -/
def memAlert (v : ℚ) : Option Alert :=
  if 85 < v then some ⟨"Memory", if v < 95 then "warning" else "critical"⟩ else none

/-- The disk block (lines 80–85): `if disk.percent > 85`, severity
`"warning" if disk.percent < 95 else "critical"`. -/
def diskAlert (v : ℚ) : Option Alert :=
  if 85 < v then some ⟨"Disk", if v < 95 then "warning" else "critical"⟩ else none

/-- The `alerts` list assembled from the three samples. -/
def checkAlerts (cpu mem disk : ℚ) : List Alert :=
  (cpuAlert cpu).toList ++ (memAlert mem).toList ++ (diskAlert disk).toList

/-- The cooldown table `self.last_alert_time`, a Python dict from key
string to the `datetime` of the last dispatch, modelled as an
association list with datetimes as rational seconds (`datetime.min`
rendered as `0`, so a sampled wall-clock `now` satisfies `300 < now`). -/
def lookupT : List (String × ℚ) → String → Option ℚ
  | [], _ => none
  | (k, v) :: t, key => if k = key then some v else lookupT t key

/-- Python dict assignment `d[key] = v`: replace or append. -/
def insertT : List (String × ℚ) → String → ℚ → List (String × ℚ)
  | [], key, v => [(key, v)]
  | (k, w) :: t, key, v =>
    if k = key then (key, v) :: t else (k, w) :: insertT t key v

/-- The key `alert_key = f"{alert['type']}_{alert['severity']}"`. -/
def alertKey (a : Alert) : String :=
  a.type ++ "_" ++ a.severity

/-- One iteration of the alert loop (lines 88–94): look up the key
(absent → `datetime.min`, i.e. `0`); if strictly more than the 300 s
cooldown elapsed, send the alert (`send_alert` swallows send failures)
and stamp the key with `now`; otherwise suppress and leave the table
unchanged.  Returns whether the alert was dispatched and the new table. -/
def monStep (now : ℚ) (table : List (String × ℚ)) (a : Alert) :
    Bool × List (String × ℚ) :=
  let last := (lookupT table (alertKey a)).getD 0
  if 300 < now - last then (true, insertT table (alertKey a) now)
  else (false, table)

/-- The alert loop over the whole `alerts` list, collecting the
dispatched alerts in order. -/
def runAlerts (now : ℚ) : List (String × ℚ) → List Alert →
    List Alert × List (String × ℚ)
  | table, [] => ([], table)
  | table, a :: rest =>
    let r := monStep now table a
    let rec' := runAlerts now r.2 rest
    (if r.1 then a :: rec'.1 else rec'.1, rec'.2)

/-- Models `check_system_health` after channel resolution: evaluate the three
thresholds on the samples, then run the cooldown loop. -/
def check_system_health (now cpu mem disk : ℚ) (table : List (String × ℚ)) :
    List Alert × List (String × ℚ) :=
  runAlerts now table (checkAlerts cpu mem disk)

/-! ## Ingress bridge (`src/api/server.py` + `src/bot/cogs/api_events.py`) -/

/-- A `StatusReport` request body (`server_name`, `status`, optional
`message`; timestamp and metadata are pass-through presentation). -/
structure StatusReport where
  server_name : String
  status : String
  message : Option String
deriving DecidableEq, Repr

/-- An `EventReport` request body. -/
structure EventReport where
  event_type : String
  source : String
  title : String
  description : Option String
  severity : String
deriving DecidableEq, Repr

/-- A `NewsUpdate` request body. -/
structure NewsUpdate where
  title : String
  content : String
  source : String
  url : Option String
deriving DecidableEq, Repr

/-- Python `x or default` on an optional string field: `None` and the
empty string are falsy, so both fall back to the default. -/
def pyOrStr (x : Option String) (d : String) : String :=
  match x with
  | some s => if s = "" then d else s
  | none => d

/-- Lookup `dict.get` over the status→colour map of `handle_status_report`. -/
def statusColor (s : String) : Nat :=
  if s = "online" then 0x00FF00
  else if s = "offline" then 0xFF0000
  else if s = "warning" then 0xFFFF00
  else if s = "error" then 0xFF0000
  else if s = "degraded" then 0xFFA500
  else 0x808080

/-- Lookup `dict.get` over the severity→colour map of `handle_event_report`. -/
def severityColor (s : String) : Nat :=
  if s = "info" then 0x0099FF
  else if s = "warning" then 0xFFFF00
  else if s = "error" then 0xFF6600
  else if s = "critical" then 0xFF0000
  else 0x808080

/-- The embed built by `handle_status_report` (lines 40–45):
`description=status_report.message or f"Status changed to ..."` (an
absent *or empty* message falls back to the default); title and a
non-empty message are used as given, with no truncation. -/
def renderStatus (r : StatusReport) : Embed :=
  { title := "Server Status: " ++ r.server_name
    url := ""
    description := pyOrStr r.message ("Status changed to " ++ r.status)
    color := statusColor r.status }

/-- The embed built by `handle_event_report` (lines 84–89):
`description=event_report.description or "No additional details
provided"` (absent or empty falls back); title and a non-empty
description are used as given, with no truncation. -/
def renderEvent (r : EventReport) : Embed :=
  { title := r.title
    url := ""
    description := pyOrStr r.description "No additional details provided"
    color := severityColor r.severity }

/-- The embed built by `handle_news_update` (lines 119–127): the content
is sliced to 4096 code points, the title is used as given; the url is
set only under `if news_update.url:`, so an absent or empty url leaves
the embed url unset (the empty string here). -/
def renderNews (r : NewsUpdate) : Embed :=
  { title := r.title
    url := pyOrStr r.url ""
    description := pySlice 4096 r.content
    color := 0x00AAFF }

/-- The server-side environment a request meets: the configured bearer
secret, whether `discord_bot` is set and `is_ready()`, whether the
`APIEventsCog` is loaded, and whether each cog handler can resolve its
target channel (an unresolved channel makes the handler return without
dispatching, not raise). -/
structure BridgeCtx where
  api_secret_key : String
  bot_ready : Bool
  cog_loaded : Bool
  status_channel_ok : Bool
  news_channel_ok : Bool
deriving DecidableEq, Repr

/-- The handler body shared by the three POST routes, inside `try:`:
bot absent/not ready → raise `HTTPException(503)`; cog missing → raise
`HTTPException(503)`; otherwise the cog handler runs (it dispatches its
embed when its channel resolves, and swallows its own send errors), and
the route returns 200.  The `.error` branch carries the raised status. -/
def routeBody (ctx : BridgeCtx) (channelOk : Bool) (e : Embed) :
    Except Nat (Nat × List Embed) :=
  if ¬ctx.bot_ready then .error 503
  else if ¬ctx.cog_loaded then .error 503
  else .ok (200, if channelOk then [e] else [])

/-- Models `verify_api_key` composed with a route handler: FastAPI runs the
dependency first — a credential mismatch raises `HTTPException(401)` and
the body never runs; then the body's `try/except Exception` catches
*every* exception — including the `HTTPException(503)` it raised
itself — and re-raises `HTTPException(500)`.  Returns the HTTP status
and the dispatch calls (embeds handed to `channel.send`). -/
def runRoute (ctx : BridgeCtx) (token : String) (channelOk : Bool) (e : Embed) :
    Nat × List Embed :=
  if token ≠ ctx.api_secret_key then (401, [])
  else
    match routeBody ctx channelOk e with
    | .ok r => r
    | .error _ => (500, [])

/-- Route `POST /status` (`report_status`). -/
def report_status (ctx : BridgeCtx) (token : String) (r : StatusReport) :
    Nat × List Embed :=
  runRoute ctx token ctx.status_channel_ok (renderStatus r)

/-- Route `POST /event` (`report_event`). -/
def report_event (ctx : BridgeCtx) (token : String) (r : EventReport) :
    Nat × List Embed :=
  runRoute ctx token ctx.status_channel_ok (renderEvent r)

/-- Route `POST /news` (`submit_news`). -/
def submit_news (ctx : BridgeCtx) (token : String) (r : NewsUpdate) :
    Nat × List Embed :=
  runRoute ctx token ctx.news_channel_ok (renderNews r)

/-! ## Helper lemmas -/

theorem lookupT_insertT_ne (table : List (String × ℚ)) (k key : String) (v : ℚ)
    (h : k ≠ key) : lookupT (insertT table k v) key = lookupT table key := by
  induction table with
  | nil => simp [insertT, lookupT, h]
  | cons p t ih =>
    obtain ⟨k', w⟩ := p
    by_cases hk : k' = k
    · subst hk
      simp [insertT, lookupT, h]
    · simp [insertT, lookupT, hk, ih]

theorem string_append_ne_right (s : String) {a b : String} (h : a ≠ b) :
    s ++ a ≠ s ++ b := by
  intro he
  apply h
  have hd := congrArg String.data he
  simp [String.data_append] at hd
  exact String.ext hd

theorem alertKey_warning_ne_critical (ty : String) :
    alertKey ⟨ty, "warning"⟩ ≠ alertKey ⟨ty, "critical"⟩ := by
  show (ty ++ "_" ++ "warning") ≠ (ty ++ "_" ++ "critical")
  exact string_append_ne_right (ty ++ "_") (by decide)

theorem pySlice_length_le (n : Nat) (s : String) : (pySlice n s).length ≤ n := by
  have h : (pySlice n s).length = (s.toList.take n).length := rfl
  rw [h, List.length_take]
  exact min_le_left n _

theorem eligB_append_of_ne (lastCheck : Tuple6) (posted : List String)
    (x : String) (s : Story) (h : storyId s ≠ x) :
    eligB lastCheck (posted ++ [x]) s = eligB lastCheck posted s := by
  simp [eligB, h]

theorem filter_eligB_append (lastCheck : Tuple6) (posted : List String)
    (x : String) (rest : List Story) (h : x ∉ rest.map storyId) :
    rest.filter (eligB lastCheck (posted ++ [x])) =
      rest.filter (eligB lastCheck posted) := by
  apply List.filter_congr
  intro s hs
  apply eligB_append_of_ne
  intro he
  exact h (he ▸ List.mem_map_of_mem storyId hs)

/-- The core of the dispatch loop: when every entry's timestamp parses
and the identifiers are pairwise distinct, the loop dispatches exactly
the first `5 - count` eligible entries, in order, appends exactly their
identifiers to the seen set, and completes without raising. -/
theorem postLoop_eq_take (sendOk : Story → Bool) (lastCheck : Tuple6)
    (l : List Story) :
    ∀ (posted : List String) (count : Nat),
      (∀ s ∈ l, isOkDate s = true) → (l.map storyId).Nodup →
      postLoop sendOk lastCheck l posted count =
        (((l.filter (eligB lastCheck posted)).take (5 - count)).map
            (fun s => (s, sendOk s)),
         posted ++ ((l.filter (eligB lastCheck posted)).take (5 - count)).map storyId,
         true) := by
  induction l with
  | nil => intro posted count _ _; simp [postLoop]
  | cons s rest ih =>
    intro posted count hdates hnodup
    have hdtail : ∀ t ∈ rest, isOkDate t = true := fun t ht =>
      hdates t (List.mem_cons_of_mem s ht)
    have hntail : (rest.map storyId).Nodup := (List.nodup_cons.mp hnodup).2
    by_cases hcnt : 5 ≤ count
    · have h0 : 5 - count = 0 := by omega
      simp [postLoop, hcnt, h0]
    · by_cases hmem : storyId s ∈ posted
      · have he : eligB lastCheck posted s = false := by simp [eligB, hmem]
        simp only [postLoop, if_neg hcnt, if_pos hmem, List.filter_cons, he,
          Bool.false_eq_true, if_false]
        exact ih posted count hdtail hntail
      · rcases hd : storyDate s with _ | d
        · exact absurd (hdates s (List.mem_cons_self s rest)) (by simp [isOkDate, hd])
        · by_cases hle : tupleLe d lastCheck = true
          · have he : eligB lastCheck posted s = false := by
              simp [eligB, hmem, hd, hle]
            simp only [postLoop, if_neg hcnt, if_neg hmem, hd, hle,
              List.filter_cons, he, Bool.false_eq_true, if_false]
            exact ih posted count hdtail hntail
          · have hle' : tupleLe d lastCheck = false := by
              revert hle; cases tupleLe d lastCheck <;> simp
            have he : eligB lastCheck posted s = true := by
              simp [eligB, hmem, hd, hle']
            have hns : storyId s ∉ rest.map storyId := (List.nodup_cons.mp hnodup).1
            have hrec := ih (posted ++ [storyId s]) (count + 1) hdtail hntail
            rw [filter_eligB_append lastCheck posted (storyId s) rest hns] at hrec
            have hsub : 5 - count = (5 - (count + 1)) + 1 := by omega
            simp only [postLoop, if_neg hcnt, if_neg hmem, hd, hle', List.filter_cons,
              he, if_true, hrec, hsub, List.take_succ_cons, List.map_cons]
            simp [List.append_assoc]

/-- Whatever happens in the loop (including an abort), the final seen
set is the initial one plus exactly the identifiers of the dispatched
entries, in order. -/
theorem postLoop_posted (sendOk : Story → Bool) (lastCheck : Tuple6)
    (l : List Story) :
    ∀ (posted : List String) (count : Nat),
      (postLoop sendOk lastCheck l posted count).2.1 =
        posted ++ (postLoop sendOk lastCheck l posted count).1.map
          (fun p => storyId p.1) := by
  induction l with
  | nil => intro posted count; simp [postLoop]
  | cons s rest ih =>
    intro posted count
    by_cases hcnt : 5 ≤ count
    · simp [postLoop, hcnt]
    · by_cases hmem : storyId s ∈ posted
      · simp only [postLoop, if_neg hcnt, if_pos hmem]
        exact ih posted count
      · rcases hd : storyDate s with _ | d
        · simp [postLoop, hcnt, hmem, hd]
        · by_cases hle : tupleLe d lastCheck = true
          · simp only [postLoop, if_neg hcnt, if_neg hmem, hd, hle, if_true]
            exact ih posted count
          · have hle' : tupleLe d lastCheck = false := by
              revert hle; cases tupleLe d lastCheck <;> simp
            simp only [postLoop, if_neg hcnt, if_neg hmem, hd, hle',
              Bool.false_eq_true, if_false, List.map_cons]
            rw [ih (posted ++ [storyId s]) (count + 1)]
            simp [List.append_assoc]

/-- Appending a timestamp-less entry after a prefix that the loop
processes without exhausting the cap or raising makes the loop abort
exactly at that entry: same dispatches, same seen set, aborted flag. -/
theorem postLoop_append_error (sendOk : Story → Bool) (lastCheck : Tuple6)
    (bad : Story) (post : List Story) (hbad : storyDate bad = .error ())
    (pre : List Story) :
    ∀ (posted : List String) (count : Nat),
      (postLoop sendOk lastCheck pre posted count).2.2 = true →
      count + (postLoop sendOk lastCheck pre posted count).1.length < 5 →
      storyId bad ∉ (postLoop sendOk lastCheck pre posted count).2.1 →
      postLoop sendOk lastCheck (pre ++ bad :: post) posted count =
        ((postLoop sendOk lastCheck pre posted count).1,
         (postLoop sendOk lastCheck pre posted count).2.1, false) := by
  induction pre with
  | nil =>
    intro posted count _ hcnt hnot
    simp only [postLoop, List.length_nil] at hcnt hnot ⊢
    have hcnt' : ¬ 5 ≤ count := by omega
    simp only [List.nil_append, postLoop, if_neg hcnt', if_neg hnot, hbad]
  | cons s pre ih =>
    intro posted count hok hcnt hnot
    by_cases hc5 : 5 ≤ count
    · simp only [postLoop, if_pos hc5, List.length_nil] at hcnt
      omega
    · by_cases hmem : storyId s ∈ posted
      · have hstep : postLoop sendOk lastCheck (s :: pre) posted count =
            postLoop sendOk lastCheck pre posted count := by
          simp [postLoop, hc5, hmem]
        have hstep2 : postLoop sendOk lastCheck ((s :: pre) ++ bad :: post) posted count =
            postLoop sendOk lastCheck (pre ++ bad :: post) posted count := by
          simp [postLoop, hc5, hmem]
        rw [hstep] at hok hcnt hnot
        rw [hstep2, hstep]
        exact ih posted count hok hcnt hnot
      · rcases hd : storyDate s with u | d
        · have hfalse : (postLoop sendOk lastCheck (s :: pre) posted count).2.2 = false := by
            simp [postLoop, hc5, hmem, hd]
          rw [hok] at hfalse
          exact absurd hfalse (by decide)
        · by_cases hle : tupleLe d lastCheck = true
          · have hstep : postLoop sendOk lastCheck (s :: pre) posted count =
                postLoop sendOk lastCheck pre posted count := by
              simp [postLoop, hc5, hmem, hd, hle]
            have hstep2 : postLoop sendOk lastCheck ((s :: pre) ++ bad :: post) posted count =
                postLoop sendOk lastCheck (pre ++ bad :: post) posted count := by
              simp [postLoop, hc5, hmem, hd, hle]
            rw [hstep] at hok hcnt hnot
            rw [hstep2, hstep]
            exact ih posted count hok hcnt hnot
          · have hle' : tupleLe d lastCheck = false := by
              revert hle; cases tupleLe d lastCheck <;> simp
            have hstep : postLoop sendOk lastCheck (s :: pre) posted count =
                ((s, sendOk s) :: (postLoop sendOk lastCheck pre (posted ++ [storyId s]) (count + 1)).1,
                 (postLoop sendOk lastCheck pre (posted ++ [storyId s]) (count + 1)).2) := by
              simp [postLoop, hc5, hmem, hd, hle']
            have hstep2 : postLoop sendOk lastCheck ((s :: pre) ++ bad :: post) posted count =
                ((s, sendOk s) :: (postLoop sendOk lastCheck (pre ++ bad :: post) (posted ++ [storyId s]) (count + 1)).1,
                 (postLoop sendOk lastCheck (pre ++ bad :: post) (posted ++ [storyId s]) (count + 1)).2) := by
              simp [postLoop, hc5, hmem, hd, hle']
            rw [hstep] at hok hcnt hnot
            simp only [List.length_cons] at hcnt
            have := ih (posted ++ [storyId s]) (count + 1) hok (by omega) hnot
            rw [hstep2, hstep, this]

/-! ## Resource monitor claims -/

/-- C4 (counterexample): a CPU sample exactly equal to the critical
threshold 90 is classified `"critical"`, not `"warning"` as the claim
states. -/
theorem c4_boundary_counterexample :
    cpuAlert 90 = some ⟨"CPU", "critical"⟩ ∧ ¬((90 : ℚ) > 90) ∧
      ("critical" : String) ≠ "warning" := by
  refine ⟨?_, by norm_num, by decide⟩
  unfold cpuAlert
  norm_num

/-- C4 (amended): for each resource sample the monitor raises a
`"critical"` alert exactly when the value is at least (not strictly
above) the critical threshold, a `"warning"` alert exactly when the
value strictly exceeds the warning threshold and is strictly below the
critical threshold, and no alert exactly when the value is at most the
warning threshold; a value exactly equal to the critical threshold
yields `"critical"`. -/
theorem c4_threshold_classification (v : ℚ) :
    ((cpuAlert v).map Alert.severity = some "critical" ↔ 90 ≤ v) ∧
    ((cpuAlert v).map Alert.severity = some "warning" ↔ 80 < v ∧ v < 90) ∧
    (cpuAlert v = none ↔ v ≤ 80) ∧
    ((memAlert v).map Alert.severity = some "critical" ↔ 95 ≤ v) ∧
    ((memAlert v).map Alert.severity = some "warning" ↔ 85 < v ∧ v < 95) ∧
    (memAlert v = none ↔ v ≤ 85) ∧
    ((diskAlert v).map Alert.severity = some "critical" ↔ 95 ≤ v) ∧
    ((diskAlert v).map Alert.severity = some "warning" ↔ 85 < v ∧ v < 95) ∧
    (diskAlert v = none ↔ v ≤ 85) := by
  unfold cpuAlert memAlert diskAlert
  refine ⟨?_, ?_, ?_, ?_, ?_, ?_, ?_, ?_, ?_⟩ <;> split_ifs <;> simp_all
  all_goals linarith

/-- C5: a triggered (type, severity) pair is dispatched, and its
cooldown-table entry stamped with the current time, exactly when the
table holds no entry for its key or strictly more than the 300 s
cooldown has elapsed since the recorded time; otherwise nothing is
dispatched and the table is unchanged.  (`runAlerts` applies `monStep`
to each triggered pair in turn; `datetime.min` is time `0`, so any
sampled wall clock satisfies `300 < now`.) -/
theorem c5_cooldown_gate (now : ℚ) (table : List (String × ℚ)) (a : Alert)
    (hnow : 300 < now) :
    ((monStep now table a).1 = true ↔
      lookupT table (alertKey a) = none ∨
        ∃ t, lookupT table (alertKey a) = some t ∧ 300 < now - t) ∧
    ((monStep now table a).1 = true →
      (monStep now table a).2 = insertT table (alertKey a) now) ∧
    ((monStep now table a).1 = false → (monStep now table a).2 = table) := by
  unfold monStep
  rcases h : lookupT table (alertKey a) with _ | t <;>
    simp only [h, Option.getD] <;> split_ifs with hc <;> simp_all

/-- C5 witness: with an empty table at time 400 the alert is dispatched
and the key stamped. -/
theorem c5_cooldown_gate_witness :
    (monStep 400 [] ⟨"CPU", "critical"⟩).1 = true ∧
    (monStep 400 [] ⟨"CPU", "critical"⟩).2 =
      insertT [] (alertKey ⟨"CPU", "critical"⟩) 400 := by
  have h := c5_cooldown_gate 400 [] ⟨"CPU", "critical"⟩ (by norm_num)
  exact ⟨h.1.mpr (Or.inl rfl), h.2.1 (h.1.mpr (Or.inl rfl))⟩

/-- C6: the dispatch decision for a triggered alert reads only the
cooldown-table entry of its own `(type, severity)` key: writing any
timestamp under the `(type, "warning")` key leaves the decision for
`(type, "critical")` unchanged, and vice versa, for every resource type
and table. -/
theorem c6_severity_keys_independent (ty : String) (now v : ℚ)
    (table : List (String × ℚ)) :
    (monStep now (insertT table (alertKey ⟨ty, "warning"⟩) v) ⟨ty, "critical"⟩).1
      = (monStep now table ⟨ty, "critical"⟩).1 ∧
    (monStep now (insertT table (alertKey ⟨ty, "critical"⟩) v) ⟨ty, "warning"⟩).1
      = (monStep now table ⟨ty, "warning"⟩).1 := by
  constructor
  · unfold monStep
    rw [lookupT_insertT_ne _ _ _ _ (alertKey_warning_ne_critical ty)]
    dsimp only
    split_ifs <;> rfl
  · unfold monStep
    rw [lookupT_insertT_ne _ _ _ _ (alertKey_warning_ne_critical ty).symm]
    dsimp only
    split_ifs <;> rfl

/-! ## Ingress bridge claims -/

/-- C7: a POST whose bearer token differs from the configured secret is
rejected with 401 by the `verify_api_key` dependency before the handler
body runs: no dispatch call is made on any of the three routes. -/
theorem c7_bad_token_rejected (ctx : BridgeCtx) (token : String)
    (sr : StatusReport) (er : EventReport) (nu : NewsUpdate)
    (h : token ≠ ctx.api_secret_key) :
    report_status ctx token sr = (401, []) ∧
    report_event ctx token er = (401, []) ∧
    submit_news ctx token nu = (401, []) := by
  unfold report_status report_event submit_news runRoute
  simp [h]

/-- C7 witness: a concrete wrong token on all three routes. -/
theorem c7_bad_token_rejected_witness :
    report_status ⟨"secret", true, true, true, true⟩ "wrong" ⟨"srv", "online", none⟩
        = (401, []) ∧
    report_event ⟨"secret", true, true, true, true⟩ "wrong"
        ⟨"deploy", "ci", "T", none, "info"⟩ = (401, []) ∧
    submit_news ⟨"secret", true, true, true, true⟩ "wrong" ⟨"T", "C", "src", none⟩
        = (401, []) :=
  c7_bad_token_rejected _ _ _ _ _ (by decide)

/-- C3 (code bug): a correctly authenticated POST while the bot is not
ready, or while the cog is not loaded, yields 500 — the handler raises
`HTTPException(503)` inside its own `try:`, and the blanket
`except Exception` catches it and re-raises `HTTPException(500)`, so
the 503 the code itself constructs never reaches the client. -/
theorem c3_unavailable_yields_500 :
    report_status ⟨"k", false, true, true, true⟩ "k" ⟨"srv", "online", none⟩
        = (500, []) ∧
    report_event ⟨"k", false, true, true, true⟩ "k" ⟨"deploy", "ci", "T", none, "info"⟩
        = (500, []) ∧
    submit_news ⟨"k", false, true, true, true⟩ "k" ⟨"T", "C", "src", none⟩
        = (500, []) ∧
    report_status ⟨"k", true, false, true, true⟩ "k" ⟨"srv", "online", none⟩
        = (500, []) ∧
    (500 : Nat) ≠ 503 := by
  decide

set_option maxRecDepth 10000 in
/-- C9 (counterexample): the event-report handler does not truncate the
title — a 300-code-point title is rendered unchanged, exceeding the
256-code-point limit before the send is attempted. -/
theorem c9_no_truncation_counterexample :
    (renderEvent ⟨"deploy", "ci", String.mk (List.replicate 300 'a'), none,
        "info"⟩).title = String.mk (List.replicate 300 'a') ∧
    (renderEvent ⟨"deploy", "ci", String.mk (List.replicate 300 'a'), none,
        "info"⟩).title.length = 300 ∧
    ¬(renderEvent ⟨"deploy", "ci", String.mk (List.replicate 300 'a'), none,
        "info"⟩).title.length ≤ 256 := by
  refine ⟨rfl, by decide, by decide⟩

/-- C9 (amended): only the feed poller's rendering truncates both
fields (title to 256 code points, description to 4096).  Of the bridge
handlers, the news handler truncates only the description to 4096 and
passes the title through unmodified; the status and event handlers
truncate neither field: the title passes through unmodified and a
non-empty caller-supplied body is rendered verbatim whatever its length
(an absent or empty body falls back to a fixed default, per Python
`x or default` truthiness). -/
theorem c9_truncation_by_renderer :
    (∀ s : Story, (post_story_embed s).title.length ≤ 256 ∧
      (post_story_embed s).description.length ≤ 4096) ∧
    (∀ r : NewsUpdate, (renderNews r).description.length ≤ 4096 ∧
      (renderNews r).title = r.title) ∧
    (∀ r : StatusReport, (renderStatus r).title = "Server Status: " ++ r.server_name ∧
      ∀ m, r.message = some m → m ≠ "" → (renderStatus r).description = m) ∧
    (∀ r : EventReport, (renderEvent r).title = r.title ∧
      ∀ d, r.description = some d → d ≠ "" → (renderEvent r).description = d) := by
  refine ⟨fun s => ⟨?_, ?_⟩, fun r => ⟨?_, rfl⟩, fun r => ⟨rfl, ?_⟩,
    fun r => ⟨rfl, ?_⟩⟩
  · exact pySlice_length_le 256 _
  · unfold post_story_embed
    dsimp only
    split_ifs
    · decide
    · exact pySlice_length_le 4096 _
  · exact pySlice_length_le 4096 _
  · intro m hm hne
    simp [renderStatus, pyOrStr, hm, hne]
  · intro d hd hne
    simp [renderEvent, pyOrStr, hd, hne]

set_option maxRecDepth 10000 in
/-- C9 witness: a 300-code-point event description is rendered
verbatim, untruncated, by the event handler, and a non-empty status
message is rendered verbatim by the status handler. -/
theorem c9_truncation_by_renderer_witness :
    (renderEvent ⟨"deploy", "ci", "T", some (String.mk (List.replicate 300 'b')),
        "info"⟩).description = String.mk (List.replicate 300 'b') ∧
    (renderStatus ⟨"srv", "online", some "body"⟩).description = "body" :=
  ⟨(c9_truncation_by_renderer.2.2.2 _).2 _ rfl (by decide),
   (c9_truncation_by_renderer.2.2.1 _).2 _ rfl (by decide)⟩

/-! ## Feed poller claims -/

theorem eligB_true_not_mem (lastCheck : Tuple6) (posted : List String) (s : Story)
    (h : eligB lastCheck posted s = true) : storyId s ∉ posted := by
  intro hm
  simp [eligB, hm] at h

/-- Unfolding of `fetch_and_post_news` with its local bindings expanded, for case
splitting on the loop outcome. -/
theorem fetch_and_post_news_eq (enum : List String → List String)
    (sendOk : Story → Bool) (now : Tuple6) (merged : List Story) (st : NewsState) :
    fetch_and_post_news enum sendOk now merged st =
      if (postLoop sendOk st.last_check (pySortStories merged)
          st.posted_stories 0).2.2 = true then
        ((postLoop sendOk st.last_check (pySortStories merged) st.posted_stories 0).1,
         ⟨now,
          if 1000 < (postLoop sendOk st.last_check (pySortStories merged)
              st.posted_stories 0).2.1.length then
            last500 (enum (postLoop sendOk st.last_check (pySortStories merged)
              st.posted_stories 0).2.1)
          else (postLoop sendOk st.last_check (pySortStories merged)
            st.posted_stories 0).2.1⟩,
         true)
      else
        ((postLoop sendOk st.last_check (pySortStories merged) st.posted_stories 0).1,
         ⟨st.last_check,
          (postLoop sendOk st.last_check (pySortStories merged) st.posted_stories 0).2.1⟩,
         false) := rfl

/-- C8: in a cycle whose entries all carry parseable timestamps and
pairwise-distinct identifiers, if more than 5 entries are eligible (not
seen, strictly newer than the cutoff), then exactly the first 5 eligible
entries in sorted order are dispatched and their identifiers appended to
the seen set, and every eligible entry beyond the cap is neither
dispatched nor marked seen (the seen set is assumed more than 5 below
its 1000-entry high-water mark, so this cycle does not evict). -/
theorem c8_per_cycle_cap (enum : List String → List String) (sendOk : Story → Bool)
    (now : Tuple6) (merged : List Story) (st : NewsState)
    (hdates : ∀ s ∈ pySortStories merged, isOkDate s = true)
    (hnodup : ((pySortStories merged).map storyId).Nodup)
    (hlen : 5 < (eligibleList merged st).length)
    (hsmall : st.posted_stories.length + 5 ≤ 1000) :
    (fetch_and_post_news enum sendOk now merged st).1 =
      ((eligibleList merged st).take 5).map (fun s => (s, sendOk s)) ∧
    (fetch_and_post_news enum sendOk now merged st).2.1.posted_stories =
      st.posted_stories ++ ((eligibleList merged st).take 5).map storyId ∧
    (fetch_and_post_news enum sendOk now merged st).2.2 = true ∧
    ∀ s ∈ (eligibleList merged st).drop 5,
      (∀ b, (s, b) ∉ (fetch_and_post_news enum sendOk now merged st).1) ∧
      storyId s ∉ (fetch_and_post_news enum sendOk now merged st).2.1.posted_stories := by
  have hkey := postLoop_eq_take sendOk st.last_check (pySortStories merged)
    st.posted_stories 0 hdates hnodup
  have hE : (pySortStories merged).filter (eligB st.last_check st.posted_stories)
      = eligibleList merged st := rfl
  rw [hE] at hkey
  simp only [Nat.sub_zero] at hkey
  have hlentake : ((eligibleList merged st).take 5).length = 5 := by
    rw [List.length_take]
    omega
  have hres : fetch_and_post_news enum sendOk now merged st =
      (((eligibleList merged st).take 5).map (fun s => (s, sendOk s)),
       ⟨now, st.posted_stories ++ ((eligibleList merged st).take 5).map storyId⟩,
       true) := by
    unfold fetch_and_post_news
    simp only [hkey]
    rw [if_pos trivial, if_neg]
    simp only [List.length_append, List.length_map, hlentake]
    omega
  have hnodupSorted : (pySortStories merged).Nodup := hnodup.of_map storyId
  have hnodupE : (eligibleList merged st).Nodup := hnodupSorted.filter _
  have hnodupEmap : ((eligibleList merged st).map storyId).Nodup :=
    hnodup.sublist ((List.filter_sublist (pySortStories merged)).map storyId)
  refine ⟨by rw [hres], by rw [hres], by rw [hres], ?_⟩
  intro s hs
  constructor
  · intro b hb
    rw [hres] at hb
    simp only [List.mem_map] at hb
    obtain ⟨t, ht, hteq⟩ := hb
    obtain ⟨hts, -⟩ := Prod.mk.injEq .. ▸ hteq
    exact List.disjoint_take_drop hnodupE (le_refl 5) (hts ▸ ht) hs
  · rw [hres]
    dsimp only
    intro hmem
    rcases List.mem_append.mp hmem with hl | hr
    · have hsE : s ∈ eligibleList merged st := List.mem_of_mem_drop hs
      have helig := (List.mem_filter.mp hsE).2
      exact eligB_true_not_mem _ _ _ helig hl
    · have h1 : storyId s ∈ ((eligibleList merged st).map storyId).take 5 := by
        rw [← List.map_take]
        exact hr
      have h2 : storyId s ∈ ((eligibleList merged st).map storyId).drop 5 := by
        rw [← List.map_drop]
        exact List.mem_map_of_mem storyId hs
      exact List.disjoint_take_drop hnodupEmap (le_refl 5) h1 h2

/-- C8 witness: eight eligible fresh entries against an empty seen set:
the first five in sorted (newest-first) order are posted and marked. -/
theorem c8_per_cycle_cap_witness :
    capRun.2.1.posted_stories =
      ([] : List String) ++
        ((eligibleList eightStories ⟨t2020, []⟩).take 5).map storyId ∧
    capRun.2.2 = true := by
  have h := c8_per_cycle_cap (fun l => l) (fun _ => true) ⟨2024, 1, 10, 0, 0, 0⟩
    eightStories ⟨t2020, []⟩ (by decide) (by decide) (by decide) (by decide)
  exact ⟨h.2.1, h.2.2.1⟩

/-- C2 (counterexample): a cycle with one fresh entry whose delivery
fails — `channel.send` raises inside `post_story`, which catches and
only logs it — still records the entry's identifier in the seen set, so
the entry is not eligible for redispatch. -/
theorem c2_failed_delivery_recorded :
    failRun.1 = [(failStory, false)] ∧
    storyId failStory ∈ failRun.2.1.posted_stories := by
  decide

/-- C2 (amended): an entry's identifier is inserted into the seen set
after every dispatch attempt, whether or not delivery succeeded —
`post_story` swallows the send failure, so `fetch_and_post_news` marks
the entry seen unconditionally and a failed entry is not redispatched.
(Stated below the eviction high-water mark so the id is still present at
cycle end.) -/
theorem c2_marked_seen_regardless_of_delivery (enum : List String → List String)
    (sendOk : Story → Bool) (now : Tuple6) (merged : List Story) (st : NewsState)
    (hsmall : (postLoop sendOk st.last_check (pySortStories merged)
        st.posted_stories 0).2.1.length ≤ 1000) :
    ∀ p ∈ (fetch_and_post_news enum sendOk now merged st).1,
      storyId p.1 ∈ (fetch_and_post_news enum sendOk now merged st).2.1.posted_stories := by
  intro p hp
  have hpost := postLoop_posted sendOk st.last_check (pySortStories merged)
    st.posted_stories 0
  have h1 : (fetch_and_post_news enum sendOk now merged st).1 =
      (postLoop sendOk st.last_check (pySortStories merged) st.posted_stories 0).1 := by
    rw [fetch_and_post_news_eq]
    split_ifs <;> rfl
  have h2 : (fetch_and_post_news enum sendOk now merged st).2.1.posted_stories =
      (postLoop sendOk st.last_check (pySortStories merged) st.posted_stories 0).2.1 := by
    rw [fetch_and_post_news_eq]
    split_ifs with ha hb
    · exact absurd hb (by omega)
    · rfl
    · rfl
  rw [h1] at hp
  rw [h2, hpost]
  exact List.mem_append_right _ (List.mem_map_of_mem _ hp)

/-- C2 witness: the failed-delivery cycle's entry is marked seen. -/
theorem c2_marked_seen_regardless_of_delivery_witness :
    storyId failStory ∈ failRun.2.1.posted_stories :=
  c2_marked_seen_regardless_of_delivery (fun l => l) (fun _ => false)
    ⟨2024, 1, 10, 0, 0, 0⟩ [failStory] ⟨t2020, []⟩ (by decide)
    (failStory, false) (by decide)

/-- C10: if the sorted entry list is a prefix the loop completes on
(without raising and without exhausting the 5-entry cap) followed by an
entry with no parsed publication timestamp whose identifier is not in
the seen set when reached, then building `datetime(0,0,0,0,0,0)` raises
at that entry and aborts the cycle: the entries after it are not
dispatched, `last_check` is not advanced, eviction is skipped, and the
identifiers of the entries dispatched before it remain in the seen
set. -/
theorem c10_missing_timestamp_aborts (enum : List String → List String)
    (sendOk : Story → Bool) (now : Tuple6) (merged : List Story) (st : NewsState)
    (pre : List Story) (bad : Story) (post : List Story)
    (hsplit : pySortStories merged = pre ++ bad :: post)
    (hbadts : bad.published_parsed = none)
    (hok : (postLoop sendOk st.last_check pre st.posted_stories 0).2.2 = true)
    (hcnt : (postLoop sendOk st.last_check pre st.posted_stories 0).1.length < 5)
    (hnot : storyId bad ∉ (postLoop sendOk st.last_check pre st.posted_stories 0).2.1) :
    fetch_and_post_news enum sendOk now merged st =
      ((postLoop sendOk st.last_check pre st.posted_stories 0).1,
       ⟨st.last_check, (postLoop sendOk st.last_check pre st.posted_stories 0).2.1⟩,
       false) ∧
    ∀ p ∈ (postLoop sendOk st.last_check pre st.posted_stories 0).1,
      storyId p.1 ∈ (postLoop sendOk st.last_check pre st.posted_stories 0).2.1 := by
  have hbad : storyDate bad = .error () := by
    unfold storyDate
    rw [hbadts]
    rfl
  have key := postLoop_append_error sendOk st.last_check bad post hbad pre
    st.posted_stories 0 hok (by omega) hnot
  constructor
  · rw [fetch_and_post_news_eq, hsplit]
    simp only [key]
    simp
  · intro p hp
    have hpost := postLoop_posted sendOk st.last_check pre st.posted_stories 0
    rw [hpost]
    exact List.mem_append_right _ (List.mem_map_of_mem _ hp)

/-- C10 witness: a fresh dated entry followed by a timestamp-less one —
the cycle dispatches the first, aborts at the second, and leaves the
cutoff at its old value. -/
theorem c10_missing_timestamp_aborts_witness :
    abortRun.2.2 = false ∧ abortRun.2.1.last_check = t2020 := by
  have h := (c10_missing_timestamp_aborts (fun l => l) (fun _ => true)
    ⟨2024, 1, 10, 0, 0, 0⟩ [mkStory 1 7, badStory] ⟨t2020, []⟩
    [mkStory 1 7] badStory [] (by decide) rfl (by decide) (by decide)
    (by decide)).1
  exact ⟨congrArg (fun x => x.2.2) h, congrArg (fun x => x.2.1.last_check) h⟩

set_option maxRecDepth 1000000 in
/-- C1 (counterexample): a cycle that pushes the seen set from 998 to
1001 identifiers trims it with `set(list(s)[-500:])`, but `list(s)`
enumerates a Python `set` in an implementation-defined order that need
not be insertion order: with the enumeration in reverse insertion order,
the id an entry dispatched *this* cycle is evicted while an id inserted
a thousand insertions earlier is retained — the retained elements are
not the 500 most recently inserted. -/
theorem c1_eviction_not_most_recent :
    evictionRunRev.2.2 = true ∧
    evictionRunRev.2.1.posted_stories.length = 500 ∧
    storyId (mkStory 3 9) ∈ evictionRunRev.1.map (fun p => storyId p.1) ∧
    storyId (mkStory 3 9) ∉ evictionRunRev.2.1.posted_stories ∧
    idNum 0 ∈ evictionRunRev.2.1.posted_stories := by
  decide

/-- C1 (amended): after a completed cycle in which the seen set has
grown beyond 1000 identifiers, the set is reduced to exactly 500
elements and every retained element was present in the pre-eviction set;
*which* 500 are retained depends on the set's unspecified iteration
order and need not be the 500 most recently inserted. -/
theorem c1_eviction_bound (enum : List String → List String)
    (sendOk : Story → Bool) (now : Tuple6) (merged : List Story) (st : NewsState)
    (hperm : ∀ l : List String, (enum l).Perm l)
    (hok : (postLoop sendOk st.last_check (pySortStories merged)
        st.posted_stories 0).2.2 = true)
    (hbig : 1000 < (postLoop sendOk st.last_check (pySortStories merged)
        st.posted_stories 0).2.1.length) :
    (fetch_and_post_news enum sendOk now merged st).2.1.posted_stories.length = 500 ∧
    ∀ x ∈ (fetch_and_post_news enum sendOk now merged st).2.1.posted_stories,
      x ∈ (postLoop sendOk st.last_check (pySortStories merged) st.posted_stories 0).2.1 := by
  have hfp : (fetch_and_post_news enum sendOk now merged st).2.1.posted_stories =
      last500 (enum (postLoop sendOk st.last_check (pySortStories merged)
        st.posted_stories 0).2.1) := by
    rw [fetch_and_post_news_eq, if_pos hok, if_pos hbig]
  have hlen : (enum (postLoop sendOk st.last_check (pySortStories merged)
      st.posted_stories 0).2.1).length =
      (postLoop sendOk st.last_check (pySortStories merged)
        st.posted_stories 0).2.1.length :=
    (hperm _).length_eq
  constructor
  · rw [hfp]
    unfold last500
    rw [List.length_drop, hlen]
    omega
  · intro x hx
    rw [hfp] at hx
    exact (hperm _).subset (List.mem_of_mem_drop hx)

set_option maxRecDepth 1000000 in
/-- C1 witness: the same growth-past-1000 cycle with `list(s)` in
insertion order still shrinks the set to exactly 500 elements. -/
theorem c1_eviction_bound_witness :
    evictionRunId.2.1.posted_stories.length = 500 :=
  (c1_eviction_bound (fun l => l) (fun _ => true) ⟨2024, 1, 10, 0, 0, 0⟩
    freshStories bigState (fun l => List.Perm.refl l) (by decide) (by decide)).1

end Watchman
